import Mathlib

/-!
Verification of the video-proctoring engine: a shallow embedding of the
repository's event-derivation, scoring and report-synthesis code, with
theorems settling the spec's claims against it.

Conventions of the embedding:
* JavaScript numbers that the code uses as integers (scores, deductions,
  millisecond timestamps, durations) are modelled as `Int`; detection
  confidences, which the code averages and compares against 0.7, as `ℚ`.
* Optional JSON fields are `Option`; JavaScript truthiness of a string is
  `s ≠ ""`, of a number `c ≠ 0`, of an optional field `Option.isSome`
  combined with the former.
* The mutable module-level arrays (`sessions` and `events` in
  src/app/api/sessions/route.ts, `events` in src/app/api/events/route.ts)
  are threaded explicitly: each route handler takes the store it closes
  over and returns the store left behind together with its response.
* Fields of source records that the modelled logic never reads (bounding
  boxes, landmarks, metadata objects, generated ids where irrelevant) are
  omitted or taken as parameters.
-/

/-- Detection event record as stored by the API routes
(src/app/api/sessions/route.ts, interface DetectionEvent). `type` and
`severity` are strings at runtime (the TypeScript unions are erased), which
is what the validation logic of POST /api/events operates on. -/
structure StoredEvent where
  id : String
  sessionId : String
  type : String
  timestamp : Int
  description : String
  severity : String
  confidence : Option ℚ
  deriving DecidableEq

/-- Session record as stored by src/app/api/sessions/route.ts
(interface ProctoringSession). `status` is a string at runtime; the PUT
handler never checks it against the TypeScript union. -/
structure ProctoringSessionRec where
  id : String
  candidateName : String
  startTime : Int
  endTime : Option Int
  duration : Int
  status : String
  integrityScore : Int
  videoQuality : String
  detectionEnabled : Bool
  deriving DecidableEq

/-- The severity → points table of the client hook
(src/unnamed/part_001, logDetectionEvent line 557:
severity === "high" ? 15 : severity === "medium" ? 10 : 5). -/
def hookDeductionStr (severity : String) : Int :=
  if severity = "high" then 15 else if severity = "medium" then 10 else 5

/-- The score update of the client hook (src/unnamed/part_001 line 558:
Math.max(0, currentSession.integrityScore - deduction)). -/
def hookNewScoreStr (integrityScore : Int) (severity : String) : Int :=
  max 0 (integrityScore - hookDeductionStr severity)

/-- The severity → points table of ProctoringService.updateIntegrityScore
(src/unnamed/part_000 lines 157-168: switch with low → 1, medium → 3,
high → 5; scoreDeduction stays 0 on any other value). -/
def serviceDeductionStr (severity : String) : Int :=
  if severity = "low" then 1
  else if severity = "medium" then 3
  else if severity = "high" then 5
  else 0

/-- The score update of ProctoringService.updateIntegrityScore
(src/unnamed/part_000 line 170: Math.max(0, integrity_score - scoreDeduction)). -/
def serviceNewScoreStr (integrity_score : Int) (severity : String) : Int :=
  max 0 (integrity_score - serviceDeductionStr severity)

/-- The canonical deduction table of the spec (section 4.2: high → 15,
medium → 10, low → 5), written from the spec's words for comparison with
the two tables found in the code. -/
def canonicalDeduction (severity : String) : Int :=
  if severity = "high" then 15
  else if severity = "medium" then 10
  else if severity = "low" then 5
  else 0

/-- The live score of the hook after replaying an event list: the session
starts at 100 (POST /api/sessions line 80) and logDetectionEvent applies
`hookNewScoreStr` once per event. -/
def hookScoreFold (events : List StoredEvent) : Int :=
  events.foldl (fun score e => hookNewScoreStr score e.severity) 100

/-- The ProctoringService score after replaying an event list: the session
starts at 100 (schema default, src/unnamed/part_001 line 676) and
logDetectionEvent applies `serviceNewScoreStr` once per event. -/
def serviceScoreFold (events : List StoredEvent) : Int :=
  events.foldl (fun score e => serviceNewScoreStr score e.severity) 100

/-- Events of a given severity, as generateIntegrityAnalysis counts them
(src/app/api/events/route.ts lines 272-274). -/
def countBySeverity (events : List StoredEvent) (sev : String) : Nat :=
  (events.filter (fun e => e.severity == sev)).length

/-- Total deduction of the report's ledger (src/app/api/events/route.ts
lines 276-304: high count × 15 + medium count × 10 + low count × 5;
tiers with count 0 add nothing either way). -/
def totalDeduction (events : List StoredEvent) : Int :=
  (countBySeverity events "high" : Int) * 15
    + (countBySeverity events "medium" : Int) * 10
    + (countBySeverity events "low" : Int) * 5

/-- Final score recomputed by generateIntegrityAnalysis
(src/app/api/events/route.ts line 306: Math.max(0, 100 - totalDeduction)). -/
def generateIntegrityAnalysisFinalScore (events : List StoredEvent) : Int :=
  max 0 (100 - totalDeduction events)

/-- Sum of the hook's per-event deductions over a list. -/
def hookDeductionSum (events : List StoredEvent) : Int :=
  (events.map (fun e => hookDeductionStr e.severity)).sum

theorem hookDeductionStr_nonneg (sev : String) : 0 ≤ hookDeductionStr sev := by
  unfold hookDeductionStr
  split <;> [norm_num; split <;> norm_num]

theorem hookDeductionSum_nonneg (events : List StoredEvent) :
    0 ≤ hookDeductionSum events := by
  induction events with
  | nil => simp [hookDeductionSum]
  | cons e es ih =>
    simp only [hookDeductionSum, List.map_cons, List.sum_cons]
    have := hookDeductionStr_nonneg e.severity
    simp only [hookDeductionSum] at ih
    omega

theorem hookScoreFold_eq_max (events : List StoredEvent) :
    ∀ s : Int, 0 ≤ s →
      events.foldl (fun score e => hookNewScoreStr score e.severity) s
        = max 0 (s - hookDeductionSum events) := by
  induction events with
  | nil =>
    intro s hs
    simp [hookDeductionSum, max_eq_right hs]
  | cons e es ih =>
    intro s _
    have h1 : (0 : Int) ≤ hookNewScoreStr s e.severity := le_max_left _ _
    rw [List.foldl_cons, ih _ h1]
    have hsum := hookDeductionSum_nonneg es
    have hd := hookDeductionStr_nonneg e.severity
    simp only [hookNewScoreStr, hookDeductionSum, List.map_cons, List.sum_cons] at *
    omega

theorem countBySeverity_cons (e : StoredEvent) (es : List StoredEvent) (sev : String) :
    countBySeverity (e :: es) sev
      = (if e.severity = sev then 1 else 0) + countBySeverity es sev := by
  by_cases h : e.severity = sev
  · simp [countBySeverity, List.filter_cons, h]
    omega
  · simp [countBySeverity, List.filter_cons, h]

theorem totalDeduction_eq_hookDeductionSum (events : List StoredEvent)
    (hvalid : ∀ e ∈ events,
      e.severity = "low" ∨ e.severity = "medium" ∨ e.severity = "high") :
    totalDeduction events = hookDeductionSum events := by
  induction events with
  | nil => simp [totalDeduction, hookDeductionSum, countBySeverity]
  | cons e es ih =>
    have he := hvalid e (List.mem_cons_self e es)
    have ih2 := ih (fun x hx => hvalid x (List.mem_cons_of_mem e hx))
    simp only [totalDeduction, countBySeverity_cons, hookDeductionSum,
      List.map_cons, List.sum_cons] at ih2 ⊢
    rcases he with h | h | h <;>
      simp only [hookDeductionStr, h] at ih2 ⊢ <;>
      norm_num <;> push_cast <;> omega

deriving instance DecidableEq for Except

/-- Body of a PUT /api/sessions request (src/app/api/sessions/route.ts
line 103: const destructuring of sessionId, status, duration,
integrityScore). A missing JSON field is `none`; a missing sessionId is
modelled as "" (both are falsy where the handler tests them). -/
structure SessionPutBody where
  sessionId : String
  status : Option String
  duration : Option Int
  integrityScore : Option Int
  deriving DecidableEq

/-- The field updates PUT /api/sessions applies to the found session
(src/app/api/sessions/route.ts lines 116-122): status only when truthy,
duration and integrityScore whenever present, endTime set to now when the
request completes a session that has no endTime yet. No value is
validated or clamped. -/
def applySessionUpdate (b : SessionPutBody) (now : Int)
    (s : ProctoringSessionRec) : ProctoringSessionRec :=
  let s1 : ProctoringSessionRec := match b.status with
    | some st => if st ≠ "" then { s with status := st } else s
    | none => s
  let s2 : ProctoringSessionRec := match b.duration with
    | some d => { s1 with duration := d }
    | none => s1
  let s3 : ProctoringSessionRec := match b.integrityScore with
    | some sc => { s2 with integrityScore := sc }
    | none => s2
  if b.status = some "completed" ∧ s3.endTime = none then
    { s3 with endTime := some now }
  else s3

/-- findIndex plus in-place write-back of PUT /api/sessions
(lines 109-124): the first session whose id matches is replaced by its
updated copy; `none` when no session matches. -/
def putSessionList (b : SessionPutBody) (now : Int) :
    List ProctoringSessionRec →
      Option (ProctoringSessionRec × List ProctoringSessionRec)
  | [] => none
  | s :: rest =>
    if s.id = b.sessionId then
      let u := applySessionUpdate b now s
      some (u, u :: rest)
    else
      match putSessionList b now rest with
      | some (u, rest2) => some (u, s :: rest2)
      | none => none

/-- PUT /api/sessions (src/app/api/sessions/route.ts lines 100-133):
reject a falsy sessionId, reject an unknown session id, otherwise apply
the updates in place and return the updated session. The returned list is
the sessions store after the call. -/
def putSessionHandler (sessions : List ProctoringSessionRec)
    (b : SessionPutBody) (now : Int) :
    Except String ProctoringSessionRec × List ProctoringSessionRec :=
  if b.sessionId = "" then (.error "Session ID is required", sessions)
  else
    match putSessionList b now sessions with
    | none => (.error "Session not found", sessions)
    | some (u, updated) => (.ok u, updated)

/-- The status values of the TypeScript union
`"active" | "paused" | "completed"` (src/app/api/sessions/route.ts
line 9); the PUT handler never checks the incoming status against them. -/
def sessionStatusValues : List String := ["active", "paused", "completed"]

/-- C1, counterexample: the claim says every code path that deducts points
for an event uses the canonical table high → 15, medium → 10, low → 5.
ProctoringService.updateIntegrityScore (src/unnamed/part_000) deducts 5
for a high-severity event, leaving score 95 where the canonical table
gives 85. -/
theorem C1_counterexample :
    serviceNewScoreStr 100 "high" = 95
  ∧ max 0 (100 - canonicalDeduction "high") = 85
  ∧ ¬ serviceNewScoreStr 100 "high" = max 0 (100 - canonicalDeduction "high") := by
  decide

/-- C1 (amended): on each new event the client hook's path
(src/unnamed/part_001 logDetectionEvent) updates the score as
score = max(0, score − deduction[severity]) with the canonical table
high → 15, medium → 10, low → 5; the ProctoringService path
(src/unnamed/part_000 updateIntegrityScore) also computes
max(0, score − deduction[severity]) but with the table
high → 5, medium → 3, low → 1 instead of the canonical one. -/
theorem C1_deduction_paths :
    (∀ score : Int,
        hookNewScoreStr score "high" = max 0 (score - canonicalDeduction "high")
      ∧ hookNewScoreStr score "medium" = max 0 (score - canonicalDeduction "medium")
      ∧ hookNewScoreStr score "low" = max 0 (score - canonicalDeduction "low"))
  ∧ (∀ score : Int,
        serviceNewScoreStr score "high" = max 0 (score - 5)
      ∧ serviceNewScoreStr score "medium" = max 0 (score - 3)
      ∧ serviceNewScoreStr score "low" = max 0 (score - 1)) := by
  constructor <;> intro score <;>
    refine ⟨?_, ?_, ?_⟩ <;>
    simp [hookNewScoreStr, hookDeductionStr, canonicalDeduction,
      serviceNewScoreStr, serviceDeductionStr]

/-- C2, counterexample: the claim says 0 ≤ integrityScore ≤ 100 holds for
every sequence of public-interface updates. A PUT /api/sessions request
carrying integrityScore 150 is accepted unvalidated and stores 150. -/
theorem C2_counterexample :
    (putSessionHandler
        [⟨"s1", "Alice", 0, none, 0, "active", 100, "720p", true⟩]
        ⟨"s1", none, none, some 150⟩ 0).1
      = .ok ⟨"s1", "Alice", 0, none, 0, "active", 150, "720p", true⟩
  ∧ (putSessionHandler
        [⟨"s1", "Alice", 0, none, 0, "active", 100, "720p", true⟩]
        ⟨"s1", none, none, some 150⟩ 0).2
      = [⟨"s1", "Alice", 0, none, 0, "active", 150, "720p", true⟩]
  ∧ ¬ ((150 : Int) ≤ 100) := by
  decide

/-- C2 (amended): the score bound 0 ≤ integrityScore ≤ 100 holds along the
event-deduction path: a score evolved from 100 by logDetectionEvent's
update (src/unnamed/part_001 lines 556-560) stays within [0, 100], and one
step of that update preserves the bounds from any in-range score. It is
the PUT /api/sessions path that breaks the invariant, storing any provided
value unvalidated (see the counterexample). -/
theorem C2_event_path_bounds :
    (∀ events : List StoredEvent,
        0 ≤ hookScoreFold events ∧ hookScoreFold events ≤ 100)
  ∧ (∀ (score : Int) (sev : String), 0 ≤ score → score ≤ 100 →
        0 ≤ hookNewScoreStr score sev ∧ hookNewScoreStr score sev ≤ 100) := by
  constructor
  · intro events
    rw [hookScoreFold, hookScoreFold_eq_max events 100 (by norm_num)]
    have := hookDeductionSum_nonneg events
    constructor <;> omega
  · intro score sev h0 h100
    have := hookDeductionStr_nonneg sev
    unfold hookNewScoreStr
    constructor <;> omega

/-- C3, counterexample: the claim says the report's recomputed final score
equals the live score of the cited scorer
(ProctoringService.updateIntegrityScore) for the same event set. For a
single high-severity event the service leaves score 95 while the report
computes 85. -/
theorem C3_counterexample :
    serviceScoreFold
        [⟨"e1", "s1", "no_face", 0, "No face detected in frame", "high", none⟩]
      = 95
  ∧ generateIntegrityAnalysisFinalScore
        [⟨"e1", "s1", "no_face", 0, "No face detected in frame", "high", none⟩]
      = 85
  ∧ (95 : Int) ≠ 85 := by
  decide

/-- C3 (amended): for every event set whose severities are the valid
"low"/"medium"/"high" values (the only ones POST /api/events stores), the
final score recomputed by generateIntegrityAnalysis equals the score the
client hook's scorer (src/unnamed/part_001, 15/10/5 table) reaches by
folding the same events from 100; the ProctoringService scorer
(src/unnamed/part_000, 1/3/5 table) does not match the report (see the
counterexample). -/
theorem C3_report_matches_hook_scorer :
    ∀ events : List StoredEvent,
      (∀ e ∈ events,
        e.severity = "low" ∨ e.severity = "medium" ∨ e.severity = "high") →
      generateIntegrityAnalysisFinalScore events = hookScoreFold events := by
  intro events hvalid
  rw [hookScoreFold, hookScoreFold_eq_max events 100 (by norm_num),
    generateIntegrityAnalysisFinalScore,
    totalDeduction_eq_hookDeductionSum events hvalid]

/-- C3, witness: the spec's own scenario — one medium focus_lost and one
high suspicious_object — evaluated concretely: both the report recompute
and the hook fold give 75. -/
theorem C3_witness :
    generateIntegrityAnalysisFinalScore
        [⟨"e1", "s1", "focus_lost", 1000, "Candidate looking away from screen",
          "medium", none⟩,
         ⟨"e2", "s1", "suspicious_object", 2000, "cell phone detected in frame",
          "high", some (4/5)⟩]
      = hookScoreFold
        [⟨"e1", "s1", "focus_lost", 1000, "Candidate looking away from screen",
          "medium", none⟩,
         ⟨"e2", "s1", "suspicious_object", 2000, "cell phone detected in frame",
          "high", some (4/5)⟩] :=
  C3_report_matches_hook_scorer _ (by decide)

/-- A detected face (src/components/cv-detection.tsx, interface
FaceDetection); the box and landmarks, never read by the event logic, are
omitted. -/
structure FaceDetection where
  confidence : ℚ
  deriving DecidableEq

/-- A detected object (src/components/cv-detection.tsx, interface
ObjectDetection); `cls` stands for the source's `class` property, a Lean
keyword; the box is omitted as never read by the event logic. -/
structure ObjectDetection where
  cls : String
  confidence : ℚ
  deriving DecidableEq

/-- One sampled detection result (src/components/cv-detection.tsx,
interface DetectionResults). performDetection always sets
multipleFaces = (faces.length > 1), but the consumers read the field, so
it is kept as data. -/
structure DetectionResults where
  faces : List FaceDetection
  objects : List ObjectDetection
  eyesClosed : Bool
  lookingAway : Bool
  multipleFaces : Bool
  deriving DecidableEq

/-- One event as handed to onDetectionEvent by the VideoInterface
(src/unnamed/part_001 line 30: type, description, severity strings). -/
structure EmittedEvent where
  type : String
  description : String
  severity : String
  deriving DecidableEq

/-- The per-update event emissions of the VideoInterface useEffect
(src/unnamed/part_001 lines 73-103), in source order: focus_lost whenever
lookingAway, multiple_faces whenever multipleFaces, no_face whenever the
face list is empty, eyes_closed whenever eyesClosed, and one
suspicious_object per detected object with confidence > 0.7 (severity high
when the class contains "phone", medium otherwise). Nothing is emitted
while not recording. None of these emissions consults a timer. -/
def videoInterfaceEvents (isRecording : Bool) (r : DetectionResults) :
    List EmittedEvent :=
  if isRecording = false then [] else
    (if r.lookingAway then
        [⟨"focus_lost", "Candidate looking away from screen", "medium"⟩]
      else [])
    ++ (if r.multipleFaces then
        [⟨"multiple_faces",
          toString r.faces.length ++ " faces detected in frame", "high"⟩]
      else [])
    ++ (if r.faces.length = 0 then
        [⟨"no_face", "No face detected in frame", "high"⟩]
      else [])
    ++ (if r.eyesClosed then
        [⟨"eyes_closed", "Candidate appears to have eyes closed", "low"⟩]
      else [])
    ++ ((r.objects.filter (fun o => (7 : ℚ)/10 < o.confidence)).map
        (fun o =>
          ⟨"suspicious_object", o.cls ++ " detected in frame",
            if "phone".toList <:+: o.cls.toList then "high"
            else "medium"⟩))

/-- A recording run of the VideoInterface over timestamped detection
updates: the emissions of each update tagged with its frame time. The
timestamps exist only in the observer; the source emission logic never
reads a clock. -/
def runVideoInterface (frames : List (Int × DetectionResults)) :
    List (Int × EmittedEvent) :=
  frames.foldr
    (fun p acc => ((videoInterfaceEvents true p.2).map (fun e => (p.1, e))) ++ acc)
    []

/-- The focus-loss debounce step of CVDetection.runDetection
(src/components/cv-detection.tsx lines 84-92): with lookingAway true,
fire onFocusLost and reset lastFocusTime to now only when
now − lastFocusTime > 5000; with lookingAway false, reset lastFocusTime
to now without firing. Returns (new lastFocusTime, fired). The
onFocusLost callback it gates only increments the useCVDetection UI
counter totalFocusLossEvents (cv-detection.tsx lines 278-284); it does
not create focus_lost events — those come from `videoInterfaceEvents`. -/
def focusStep (lastFocusTime now : Int) (lookingAway : Bool) : Int × Bool :=
  if lookingAway then
    if 5000 < now - lastFocusTime then (now, true) else (lastFocusTime, false)
  else (now, false)

/-- The multiple-faces step of CVDetection.runDetection
(src/components/cv-detection.tsx lines 94-98): fire onMultipleFaces and
set lastFaceCount to the current face count only when multipleFaces is
true and the count differs from lastFaceCount; otherwise leave
lastFaceCount untouched. Returns (new lastFaceCount, fired). The
onMultipleFaces callback it gates only increments the useCVDetection UI
counter totalMultipleFaceEvents (cv-detection.tsx lines 286-292); it
does not create multiple_faces events — those come from
`videoInterfaceEvents`. -/
def multipleFacesStep (lastFaceCount : Nat) (r : DetectionResults) :
    Nat × Bool :=
  if r.multipleFaces ∧ r.faces.length ≠ lastFaceCount then
    (r.faces.length, true)
  else (lastFaceCount, false)

/-- A frame with the given face count, as performDetection produces it
(src/components/cv-detection.tsx lines 156-162: multipleFaces is
faces.length > 1; face boxes and confidences are irrelevant to the
counting logic). -/
def mkCountFrame (n : Nat) : DetectionResults :=
  { faces := List.replicate n ⟨1⟩
    objects := []
    eyesClosed := false
    lookingAway := false
    multipleFaces := decide (1 < n) }

/-- The multiple-faces state machine run over a sequence of face counts,
from the initial lastFaceCount 1 (src/components/cv-detection.tsx line 48:
useRef(1)). Returns the final lastFaceCount and the per-frame fired
flags. -/
def multipleFacesRun (init : Nat) (counts : List Nat) : Nat × List Bool :=
  counts.foldl
    (fun acc n =>
      let r := multipleFacesStep acc.1 (mkCountFrame n)
      (r.1, acc.2 ++ [r.2]))
    (init, [])

/-- C4, counterexample: the claim says no_face is emitted only after at
least 10 seconds of continuous face absence. On a run whose very first
frame (time 0) has an empty face set, the VideoInterface emits no_face
immediately, 0 ms into the absence. -/
theorem C4_counterexample :
    runVideoInterface [(0, ⟨[], [], false, false, false⟩)]
      = [(0, ⟨"no_face", "No face detected in frame", "high"⟩)]
  ∧ (0 : Int) < 10000 := by
  decide

/-- C4 (amended): a no_face event (severity high) is emitted exactly when
the update's face set is empty and the session is recording — on every
such frame, with no 10-second debounce and no lastFaceSeenAt state
anywhere in the code. -/
theorem C4_no_face_level_triggered :
    ∀ (isRecording : Bool) (r : DetectionResults),
      (⟨"no_face", "No face detected in frame", "high"⟩ : EmittedEvent)
          ∈ videoInterfaceEvents isRecording r
        ↔ (isRecording = true ∧ r.faces.length = 0) := by
  intro isRecording r
  cases isRecording
  · simp [videoInterfaceEvents]
  · simp only [videoInterfaceEvents, Bool.true_eq_false, if_false,
      List.mem_append, List.mem_map, List.mem_filter, true_and]
    constructor
    · rintro ((((h | h) | h) | h) | ⟨o, _, h⟩)
      · revert h
        split <;> simp
      · revert h
        split <;> simp
      · revert h
        split
        · next hlen => simp [hlen]
        · simp
      · revert h
        split <;> simp
      · simp only [EmittedEvent.mk.injEq] at h
        simp at h
    · intro hlen
      refine Or.inl (Or.inl (Or.inr ?_))
      simp [hlen]

/-- Whether a frame with the given face count makes the VideoInterface
emit a multiple_faces event, per frame of a count sequence. -/
def multipleFacesEmissionPattern (counts : List Nat) : List Bool :=
  counts.map (fun n =>
    (videoInterfaceEvents true (mkCountFrame n)).any
      (fun e => e.type == "multiple_faces"))

/-- C5, counterexample: the claim says no focus_lost event fires before
5.000 s of continuous away-gaze. focus_lost events are created by the
VideoInterface useEffect (src/unnamed/part_001 lines 77-79), which has
no debounce: on a run whose very first frame (time 0) has the gaze-away
flag set, a focus_lost event is emitted immediately, 0 ms into the
away-period. (The strict > 5000 ms debounce in cv-detection.tsx only
gates the UI statistics counter.) -/
theorem C5_counterexample :
    runVideoInterface [(0, ⟨[⟨1⟩], [], false, true, false⟩)]
      = [(0, ⟨"focus_lost", "Candidate looking away from screen", "medium"⟩)]
  ∧ (0 : Int) < 5000 := by
  decide

/-- C5 (amended): focus_lost events are emitted undebounced — exactly one
(severity medium) on every processed frame whose gaze-away flag is true
while recording, so under a continuous gaze-away signal an event fires
immediately and on each subsequent frame. The 5-second re-arming debounce
exists only in CVDetection.runDetection's onFocusLost path, which
increments the UI counter totalFocusLossEvents rather than emitting
events: there, with lookingAway true it fires and resets lastFocusTime
exactly when strictly more than 5000 ms have elapsed since lastFocusTime,
and a focused sample resets the timer without firing. -/
theorem C5_focus_lost_undebounced :
    (∀ (isRecording : Bool) (r : DetectionResults),
        (⟨"focus_lost", "Candidate looking away from screen", "medium"⟩
            : EmittedEvent) ∈ videoInterfaceEvents isRecording r
          ↔ (isRecording = true ∧ r.lookingAway = true))
  ∧ (∀ lastFocusTime now : Int,
        (focusStep lastFocusTime now true = (now, true)
            ↔ 5000 < now - lastFocusTime)
      ∧ (¬ 5000 < now - lastFocusTime
            → focusStep lastFocusTime now true = (lastFocusTime, false))
      ∧ focusStep lastFocusTime now false = (now, false)) := by
  constructor
  · intro isRecording r
    cases isRecording
    · simp [videoInterfaceEvents]
    · simp only [videoInterfaceEvents, Bool.true_eq_false, if_false,
        List.mem_append, List.mem_map, List.mem_filter, true_and]
      constructor
      · rintro ((((h | h) | h) | h) | ⟨o, _, h⟩)
        · revert h
          split
          · next hla => simp [hla]
          · simp
        · revert h
          split <;> simp
        · revert h
          split <;> simp
        · revert h
          split <;> simp
        · simp only [EmittedEvent.mk.injEq] at h
          simp at h
      · intro hla
        refine Or.inl (Or.inl (Or.inl (Or.inl ?_)))
        simp [hla]
  · intro lastFocusTime now
    refine ⟨?_, ?_, ?_⟩
    · unfold focusStep
      constructor
      · intro h
        by_contra hlt
        rw [if_pos rfl, if_neg hlt] at h
        simp at h
      · intro h
        rw [if_pos rfl, if_pos h]
    · intro h
      unfold focusStep
      rw [if_pos rfl, if_neg h]
    · unfold focusStep
      rfl

/-- C6, counterexample: the claim says multiple_faces fires exactly on a
count change to a value > 1 — for the face-count sequence 1,1,2,2,1,2, at
the 3rd and 6th frames and not at the 4th. multiple_faces events are
created by the VideoInterface useEffect (src/unnamed/part_001 lines
82-84) level-triggered, on every frame with multipleFaces true, so the
actual emission pattern for that sequence is
[false, false, true, true, false, true]: an event does fire at the 4th
frame. -/
theorem C6_counterexample :
    multipleFacesEmissionPattern [1, 1, 2, 2, 1, 2]
        = [false, false, true, true, false, true]
  ∧ [false, false, true, true, false, true]
      ≠ [false, false, true, false, false, true] := by
  decide

/-- C6 (amended): a multiple_faces event (severity high, with the current
count in the description) is emitted level-triggered — exactly when the
frame's multipleFaces flag (face count > 1) is set while recording,
regardless of lastFaceCount — so the face-count sequence 1,1,2,2,1,2
yields events at the 3rd, 4th and 6th frames. The edge-trigger on
lastFaceCount exists only in CVDetection.runDetection's onMultipleFaces
path, which increments the UI counter totalMultipleFaceEvents rather
than emitting events: there, it fires exactly when multipleFaces is true
and the count differs from lastFaceCount, lastFaceCount is updated only
on firing, and that counter path fires at the 3rd frame only for the same
sequence. -/
theorem C6_multiple_faces_level_triggered :
    (∀ (isRecording : Bool) (r : DetectionResults),
        (⟨"multiple_faces",
            toString r.faces.length ++ " faces detected in frame", "high"⟩
            : EmittedEvent) ∈ videoInterfaceEvents isRecording r
          ↔ (isRecording = true ∧ r.multipleFaces = true))
  ∧ multipleFacesEmissionPattern [1, 1, 2, 2, 1, 2]
      = [false, false, true, true, false, true]
  ∧ (∀ (lastFaceCount : Nat) (r : DetectionResults),
        (multipleFacesStep lastFaceCount r = (r.faces.length, true)
            ↔ r.multipleFaces = true ∧ r.faces.length ≠ lastFaceCount)
      ∧ (¬ (r.multipleFaces = true ∧ r.faces.length ≠ lastFaceCount)
            → multipleFacesStep lastFaceCount r = (lastFaceCount, false)))
  ∧ (multipleFacesRun 1 [1, 1, 2, 2, 1, 2]).2
      = [false, false, true, false, false, false] := by
  refine ⟨?_, by decide, fun lastFaceCount r => ⟨?_, ?_⟩, by decide⟩
  · intro isRecording r
    cases isRecording
    · simp [videoInterfaceEvents]
    · simp only [videoInterfaceEvents, Bool.true_eq_false, if_false,
        List.mem_append, List.mem_map, List.mem_filter, true_and]
      constructor
      · rintro ((((h | h) | h) | h) | ⟨o, _, h⟩)
        · revert h
          split <;> simp
        · revert h
          split
          · next hmf => simp [hmf]
          · simp
        · revert h
          split <;> simp
        · revert h
          split <;> simp
        · simp only [EmittedEvent.mk.injEq] at h
          simp at h
      · intro hmf
        refine Or.inl (Or.inl (Or.inl (Or.inr ?_)))
        simp [hmf]
  · unfold multipleFacesStep
    constructor
    · intro h
      by_contra hc
      rw [if_neg (by simpa using hc)] at h
      simp only [Prod.mk.injEq] at h
      exact absurd h.2 (by simp)
    · intro h
      rw [if_pos (by simpa using h)]
  · intro h
    unfold multipleFacesStep
    rw [if_neg (by simpa using h)]

/-- Body of a POST /api/events request (src/app/api/events/route.ts
line 53). Required string fields are modelled as strings with "" for a
missing (falsy) value; confidence and metadata are optional and never
validated (metadata, never read by modelled logic, is omitted). -/
structure EventPostBody where
  sessionId : String
  type : String
  description : String
  severity : String
  confidence : Option ℚ
  deriving DecidableEq

/-- The event types POST /api/events accepts
(src/app/api/events/route.ts lines 59-67). -/
def validTypes : List String :=
  ["focus_lost", "no_face", "multiple_faces", "phone_detected",
   "notes_detected", "suspicious_object", "eyes_closed"]

/-- The severities POST /api/events accepts
(src/app/api/events/route.ts line 68). -/
def validSeverities : List String := ["low", "medium", "high"]

/-- POST /api/events (src/app/api/events/route.ts lines 50-101): reject
a falsy required field, an unknown type, or an unknown severity, in that
order, all before touching the store; otherwise append the new event.
`newId` stands for the generated id and `now` for the Date timestamp.
The returned list is the events store after the call. -/
def postEventHandler (events : List StoredEvent) (b : EventPostBody)
    (newId : String) (now : Int) :
    Except String StoredEvent × List StoredEvent :=
  if b.sessionId = "" ∨ b.type = "" ∨ b.description = "" ∨ b.severity = "" then
    (.error "Missing required fields", events)
  else if ¬ b.type ∈ validTypes then
    (.error "Invalid event type", events)
  else if ¬ b.severity ∈ validSeverities then
    (.error "Invalid severity level", events)
  else
    let e : StoredEvent :=
      ⟨newId, b.sessionId, b.type, now, b.description, b.severity, b.confidence⟩
    (.ok e, events ++ [e])

/-- C7, counterexample: the claim says every update request carrying an
unknown enum value (including session status) is rejected. A PUT
/api/sessions with status "bogus" — not a value of the
active/paused/completed union — succeeds and mutates the stored
session. -/
theorem C7_counterexample :
    (putSessionHandler
        [⟨"s1", "Alice", 0, none, 0, "active", 100, "720p", true⟩]
        ⟨"s1", some "bogus", none, none⟩ 0).1
      = .ok ⟨"s1", "Alice", 0, none, 0, "bogus", 100, "720p", true⟩
  ∧ (putSessionHandler
        [⟨"s1", "Alice", 0, none, 0, "active", 100, "720p", true⟩]
        ⟨"s1", some "bogus", none, none⟩ 0).2
      = [⟨"s1", "Alice", 0, none, 0, "bogus", 100, "720p", true⟩]
  ∧ ¬ "bogus" ∈ sessionStatusValues := by
  decide

/-- C7 (amended): event creation is validated before any mutation — a
POST /api/events that errors leaves the events store unchanged, and a
successful one implies the type and severity were valid enum values and
appends exactly the one new event; session update rejects a missing
sessionId and an unknown session id with the store unchanged, but
performs no enum validation on status: any non-empty status string is
accepted and stored as given (see the counterexample). -/
theorem C7_validation_before_mutation :
    (∀ (events : List StoredEvent) (b : EventPostBody) (newId : String)
        (now : Int) (msg : String),
      (postEventHandler events b newId now).1 = .error msg →
        (postEventHandler events b newId now).2 = events)
  ∧ (∀ (events : List StoredEvent) (b : EventPostBody) (newId : String)
        (now : Int) (e : StoredEvent),
      (postEventHandler events b newId now).1 = .ok e →
        b.type ∈ validTypes ∧ b.severity ∈ validSeverities
          ∧ (postEventHandler events b newId now).2 = events ++ [e])
  ∧ (∀ (sessions : List ProctoringSessionRec) (b : SessionPutBody)
        (now : Int) (msg : String),
      (putSessionHandler sessions b now).1 = .error msg →
        (putSessionHandler sessions b now).2 = sessions)
  ∧ (∀ (s : ProctoringSessionRec) (st : String) (now : Int),
      s.id ≠ "" → st ≠ "" → st ≠ "completed" →
        putSessionHandler [s] ⟨s.id, some st, none, none⟩ now
          = (.ok { s with status := st }, [{ s with status := st }])) := by
  refine ⟨?_, ?_, ?_, ?_⟩
  · intro events b newId now msg h
    unfold postEventHandler at h ⊢
    split_ifs at h ⊢
    all_goals simp_all
  · intro events b newId now e h
    unfold postEventHandler at h ⊢
    split_ifs at h ⊢
    all_goals simp_all
  · intro sessions b now msg h
    unfold putSessionHandler at h ⊢
    split_ifs at h ⊢
    · rfl
    · rcases hpl : putSessionList b now sessions with _ | ⟨u, updated⟩ <;>
        simp_all
  · intro s st now hid hst hnc
    have happ : applySessionUpdate ⟨s.id, some st, none, none⟩ now s
        = { s with status := st } := by
      simp [applySessionUpdate, hst, hnc]
    have hfind : putSessionList ⟨s.id, some st, none, none⟩ now [s]
        = some ({ s with status := st }, [{ s with status := st }]) := by
      simp [putSessionList, happ]
    simp [putSessionHandler, hfind, hid]

/-- Query parameters of GET /api/events (src/app/api/events/route.ts
lines 9-14). A parameter absent from the URL is `none`; limit and offset
are already parsed (their defaults are 50 and 0). -/
structure EventsQuery where
  sessionId : Option String
  type : Option String
  severity : Option String
  limit : Nat
  offset : Nat
  deriving DecidableEq

/-- Whether `if (param)` takes the filter branch for a query parameter:
searchParams.get returns null (none) or a string, and "" is falsy. -/
def queryFilterActive : Option String → Bool
  | some s => s ≠ ""
  | none => false

/-- The three filter steps of GET /api/events (lines 19-29); each active
filter produces a fresh array, an inactive one keeps the alias. -/
def applyEventFilters (events : List StoredEvent) (q : EventsQuery) :
    List StoredEvent :=
  let l1 : List StoredEvent :=
    if queryFilterActive q.sessionId then
      events.filter (fun e => e.sessionId == q.sessionId.getD "")
    else events
  let l2 : List StoredEvent :=
    if queryFilterActive q.type then
      l1.filter (fun e => e.type == q.type.getD "")
    else l1
  let l3 : List StoredEvent :=
    if queryFilterActive q.severity then
      l2.filter (fun e => e.severity == q.severity.getD "")
    else l2
  l3

/-- Stable insertion into a timestamp-descending list: the element goes
after every element with a greater-or-equal timestamp, as the stable
Array.prototype.sort with comparator (a, b) => b.timestamp − a.timestamp
would place it. -/
def insertByTimestampDesc (e : StoredEvent) :
    List StoredEvent → List StoredEvent
  | [] => [e]
  | x :: xs =>
    if e.timestamp ≤ x.timestamp then x :: insertByTimestampDesc e xs
    else e :: x :: xs

/-- The sort of GET /api/events line 32 (newest first), as a stable
insertion sort. -/
def sortByTimestampDesc (events : List StoredEvent) : List StoredEvent :=
  events.foldl (fun acc e => insertByTimestampDesc e acc) []

/-- GET /api/events (src/app/api/events/route.ts lines 8-47): filter,
sort newest-first, paginate with slice(offset, offset + limit). The
second component is the events store after the call: when no filter
parameter is active, `filteredEvents` still aliases the store and
Array.prototype.sort mutates it in place, so the store itself ends up
sorted; when any filter is active the sort mutates a fresh filtered
array and the store is untouched. Returns ((paginated data, total),
store after). -/
def getEventsHandler (events : List StoredEvent) (q : EventsQuery) :
    (List StoredEvent × Nat) × List StoredEvent :=
  let filteredEvents := applyEventFilters events q
  let sorted := sortByTimestampDesc filteredEvents
  let paginated := (sorted.drop q.offset).take q.limit
  let storeAfter :=
    if queryFilterActive q.sessionId ∨ queryFilterActive q.type
        ∨ queryFilterActive q.severity
    then events else sorted
  ((paginated, filteredEvents.length), storeAfter)

theorem insertByTimestampDesc_perm (e : StoredEvent) (l : List StoredEvent) :
    (insertByTimestampDesc e l).Perm (e :: l) := by
  induction l with
  | nil => simp [insertByTimestampDesc]
  | cons x xs ih =>
    unfold insertByTimestampDesc
    split
    · exact ((ih.cons x).trans (List.Perm.swap e x xs))
    · exact List.Perm.refl _

theorem sortByTimestampDesc_perm (events : List StoredEvent) :
    (sortByTimestampDesc events).Perm events := by
  suffices h : ∀ (l acc : List StoredEvent),
      (l.foldl (fun a e => insertByTimestampDesc e a) acc).Perm (l ++ acc) by
    simpa using h events []
  intro l
  induction l with
  | nil => intro acc; simp
  | cons e es ih =>
    intro acc
    rw [List.foldl_cons]
    refine (ih (insertByTimestampDesc e acc)).trans ?_
    have h1 : (es ++ insertByTimestampDesc e acc).Perm (es ++ (e :: acc)) :=
      List.Perm.append_left es (insertByTimestampDesc_perm e acc)
    have h2 : (es ++ (e :: acc)).Perm (e :: (es ++ acc)) := List.perm_middle
    exact h1.trans h2

theorem insertByTimestampDesc_pairwise (e : StoredEvent)
    (l : List StoredEvent)
    (h : l.Pairwise (fun a b => b.timestamp ≤ a.timestamp)) :
    (insertByTimestampDesc e l).Pairwise
      (fun a b => b.timestamp ≤ a.timestamp) := by
  induction l with
  | nil => simp [insertByTimestampDesc]
  | cons x xs ih =>
    rw [List.pairwise_cons] at h
    unfold insertByTimestampDesc
    split
    · next hle =>
      rw [List.pairwise_cons]
      refine ⟨?_, ih h.2⟩
      intro y hy
      rcases List.mem_cons.mp
          ((insertByTimestampDesc_perm e xs).mem_iff.mp hy) with hy2 | hy2
      · rw [hy2]
        exact hle
      · exact h.1 y hy2
    · next hgt =>
      rw [List.pairwise_cons]
      refine ⟨?_, List.pairwise_cons.mpr h⟩
      intro y hy
      rcases List.mem_cons.mp hy with hy | hy
      · subst hy
        omega
      · have := h.1 y hy
        omega

theorem sortByTimestampDesc_pairwise (events : List StoredEvent) :
    (sortByTimestampDesc events).Pairwise
      (fun a b => b.timestamp ≤ a.timestamp) := by
  suffices h : ∀ (l acc : List StoredEvent),
      acc.Pairwise (fun a b => b.timestamp ≤ a.timestamp) →
        (l.foldl (fun a e => insertByTimestampDesc e a) acc).Pairwise
          (fun a b => b.timestamp ≤ a.timestamp) by
    exact h events [] (by simp)
  intro l
  induction l with
  | nil => intro acc hacc; simpa using hacc
  | cons e es ih =>
    intro acc hacc
    rw [List.foldl_cons]
    exact ih _ (insertByTimestampDesc_pairwise e acc hacc)

/-- A query with every filter parameter absent leaves `filteredEvents`
aliasing the store. -/
def noFilterQuery (limit offset : Nat) : EventsQuery :=
  ⟨none, none, none, limit, offset⟩

/-- C9: a GET /api/events without sessionId, type or severity filter
sorts the shared store in place — the store after the call is exactly the
timestamp-descending (newest-first) reordering of what was stored — while
any GET, filtered or not, leaves the store's contents unchanged as a
multiset (and a filtered GET leaves the store untouched entirely). -/
theorem C9_get_sorts_store_in_place :
    (∀ (events : List StoredEvent) (limit offset : Nat),
        (getEventsHandler events (noFilterQuery limit offset)).2
          = sortByTimestampDesc events)
  ∧ (∀ events : List StoredEvent,
        (sortByTimestampDesc events).Perm events
      ∧ (sortByTimestampDesc events).Pairwise
          (fun a b => b.timestamp ≤ a.timestamp))
  ∧ (∀ (events : List StoredEvent) (q : EventsQuery),
        ((getEventsHandler events q).2).Perm events) := by
  refine ⟨?_, ?_, ?_⟩
  · intro events limit offset
    simp [getEventsHandler, noFilterQuery, queryFilterActive,
      applyEventFilters]
  · intro events
    exact ⟨sortByTimestampDesc_perm events, sortByTimestampDesc_pairwise events⟩
  · intro events q
    unfold getEventsHandler
    by_cases hf : queryFilterActive q.sessionId ∨ queryFilterActive q.type
        ∨ queryFilterActive q.severity
    · simp only [if_pos hf]
      exact List.Perm.refl _
    · simp only [if_neg hf]
      push_neg at hf
      have hfe : applyEventFilters events q = events := by
        unfold applyEventFilters
        simp [hf.1, hf.2.1, hf.2.2]
      rw [hfe]
      exact sortByTimestampDesc_perm events

/-- The process-wide mutable state of the two route modules. Next.js
gives each route module its own module scope, so there are two distinct
event arrays: `sessionsRouteEvents` is the `events` declared in
src/app/api/sessions/route.ts line 35 (nothing in that module ever
appends to it), and `eventsRouteEvents` is the `events` declared in
src/app/api/events/route.ts line 5, the one POST /api/events appends to
and GET /api/events reads. -/
structure AppState where
  sessions : List ProctoringSessionRec
  sessionsRouteEvents : List StoredEvent
  eventsRouteEvents : List StoredEvent
  deriving DecidableEq

/-- POST /api/events acting on the app state: it touches only the events
route's own store. -/
def postEventApp (st : AppState) (b : EventPostBody) (newId : String)
    (now : Int) : Except String StoredEvent × AppState :=
  let r := postEventHandler st.eventsRouteEvents b newId now
  (r.1, { st with eventsRouteEvents := r.2 })

/-- findIndex + splice of DELETE /api/sessions (lines 145-152): remove
the first session whose id matches. -/
def removeFirstSession : List ProctoringSessionRec → String →
    List ProctoringSessionRec
  | [], _ => []
  | s :: rest, sid =>
    if s.id = sid then rest else s :: removeFirstSession rest sid

/-- DELETE /api/sessions (src/app/api/sessions/route.ts lines 136-161):
reject a falsy sessionId, reject an unknown session id, otherwise filter
the module's own `events` array ("Also delete related events", line 150)
and splice the session out. The events route's store is not touched —
that module's `events` is a different variable. -/
def deleteSessionApp (st : AppState) (sessionId : String) :
    Except String Unit × AppState :=
  if sessionId = "" then (.error "Session ID is required", st)
  else if st.sessions.all (fun s => ¬ s.id == sessionId) then
    (.error "Session not found", st)
  else
    (.ok (),
      { st with
          sessionsRouteEvents :=
            st.sessionsRouteEvents.filter (fun e => ¬ e.sessionId == sessionId)
          sessions := removeFirstSession st.sessions sessionId })

/-- C8: the claimed cascade does not happen. Scenario: a session s1
exists; one event for s1 is appended through POST /api/events; DELETE
/api/sessions?sessionId=s1 succeeds and removes the session — yet the
appended event is still in the events route's store, and a
GET /api/events?sessionId=s1 still returns it. The handler's own comment
says "Also delete related events", but the `events` it filters is the
sessions module's always-empty array, not the store POST /api/events
appends to. -/
theorem C8_cascade_delete_misses_events :
    (postEventApp
        ⟨[⟨"s1", "Alice", 0, none, 0, "active", 100, "720p", true⟩], [], []⟩
        ⟨"s1", "focus_lost", "Candidate looking away from screen", "medium",
          none⟩ "e1" 1000).2
      = ⟨[⟨"s1", "Alice", 0, none, 0, "active", 100, "720p", true⟩], [],
         [⟨"e1", "s1", "focus_lost", 1000,
           "Candidate looking away from screen", "medium", none⟩]⟩
  ∧ (deleteSessionApp
        ⟨[⟨"s1", "Alice", 0, none, 0, "active", 100, "720p", true⟩], [],
         [⟨"e1", "s1", "focus_lost", 1000,
           "Candidate looking away from screen", "medium", none⟩]⟩
        "s1").1
      = .ok ()
  ∧ (deleteSessionApp
        ⟨[⟨"s1", "Alice", 0, none, 0, "active", 100, "720p", true⟩], [],
         [⟨"e1", "s1", "focus_lost", 1000,
           "Candidate looking away from screen", "medium", none⟩]⟩
        "s1").2
      = ⟨[], [],
         [⟨"e1", "s1", "focus_lost", 1000,
           "Candidate looking away from screen", "medium", none⟩]⟩
  ∧ ((getEventsHandler
        [⟨"e1", "s1", "focus_lost", 1000,
          "Candidate looking away from screen", "medium", none⟩]
        ⟨some "s1", none, none, 50, 0⟩).1).1
      = [⟨"e1", "s1", "focus_lost", 1000,
          "Candidate looking away from screen", "medium", none⟩] := by
  decide

/-- JavaScript truthiness of an optional confidence number: undefined, 0
(and NaN, which ℚ does not have) are falsy. -/
def truthyConfidence : Option ℚ → Bool
  | some c => c ≠ 0
  | none => false

/-- averageConfidence of generateStatistics (src/app/api/events/route.ts
lines 252-254): filter the events whose confidence is truthy, take their
confidence values, and divide the sum by the count when the count is
positive, else 0. -/
def averageConfidence (events : List StoredEvent) : ℚ :=
  let confidenceValues :=
    (events.filter (fun e => truthyConfidence e.confidence)).map
      (fun e => e.confidence.getD 0)
  if 0 < confidenceValues.length then
    confidenceValues.sum / (confidenceValues.length : ℚ)
  else 0

/-- The confidences the claim says take part in the average: those
present and different from 0, written independently of the code's
filter-then-map shape. -/
def presentNonzeroConfidences (events : List StoredEvent) : List ℚ :=
  events.filterMap (fun e =>
    match e.confidence with
    | some c => if c = 0 then none else some c
    | none => none)

theorem confidenceValues_eq_presentNonzero (events : List StoredEvent) :
    (events.filter (fun e => truthyConfidence e.confidence)).map
        (fun e => e.confidence.getD 0)
      = presentNonzeroConfidences events := by
  induction events with
  | nil => simp [presentNonzeroConfidences]
  | cons e es ih =>
    simp only [presentNonzeroConfidences, truthyConfidence, ne_eq,
      decide_not] at ih ⊢
    rcases hc : e.confidence with _ | c
    · simp [List.filter_cons, List.filterMap_cons, hc, ih]
    · by_cases h0 : c = 0
      · simp [List.filter_cons, List.filterMap_cons, hc, h0, ih]
      · simp [List.filter_cons, List.filterMap_cons, hc, h0, ih]

/-- C10: averageConfidence is the arithmetic mean of exactly the
confidences that are present and nonzero — an event whose confidence is
absent or exactly 0 contributes to neither the sum nor the count — and
it is 0 when no event has such a confidence. -/
theorem C10_average_confidence_truthy_mean :
    (∀ events : List StoredEvent,
        averageConfidence events
          = if presentNonzeroConfidences events = [] then 0
            else (presentNonzeroConfidences events).sum
              / ((presentNonzeroConfidences events).length : ℚ))
  ∧ (∀ (events : List StoredEvent) (e : StoredEvent),
        e.confidence = none ∨ e.confidence = some 0 →
          averageConfidence (e :: events) = averageConfidence events)
  ∧ averageConfidence [] = 0 := by
  refine ⟨?_, ?_, by decide⟩
  · intro events
    unfold averageConfidence
    rw [confidenceValues_eq_presentNonzero]
    rcases h : presentNonzeroConfidences events with _ | ⟨c, cs⟩
    · simp
    · simp
  · intro events e he
    unfold averageConfidence
    have hfilter :
        (e :: events).filter (fun x => truthyConfidence x.confidence)
          = events.filter (fun x => truthyConfidence x.confidence) := by
      rcases he with he | he <;>
        simp [List.filter_cons, truthyConfidence, he]
    rw [hfilter]
